import Mathlib

/-!
Shallow embedding of `src/dataset/pipeline.py`.

The Python module builds lazy "pipelines": an ordered list of action
descriptors (plain dicts) plus an optional bound dataset, composed through
operator overloads (`+`, `@`, `*`, `concat`, `join`, ...), and executed
either inline or through a prefetching queue machinery.

The embedding below translates, definition by definition:
  * the descriptor / pipeline data model (`PAction`, `PPipeline`);
  * the composition operators (`mult_option`, `Pipeline.__init__`'s
    copy-with-composition branch, `from_pipeline`, `concat`, `__add__`,
    `__matmul__`, `__mul__`);
  * the sequential executor (`_exec_all_actions`, `_exec_one_action`,
    `_exec_nested_pipeline`, `_needs_exec`), parameterised over an
    environment supplying the external collaborators (batch method
    dispatch, dataset `create_batch`, Bernoulli draws);
  * the prefetch delivery logic (`_run_batches_from_queue` and the
    `prefetch == 0` branch of `gen_batch`), with the per-batch worker
    outcome abstracted as ok / SkipBatchException / other exception.

Machine-level caveats of the Python code that the model keeps faithfully:
  * `range(action['repeat'] or 1)`: Python `0 or 1` is `1` (see `or_one`);
  * the `skip_batch` flag in `_run_batches_from_queue` is reset only
    inside the `if not skip_batch:` branch, i.e. never when it is `True`
    (see `consumer_go`);
  * on a non-Skip worker exception, `batch = future.result()` leaves the
    loop variable `batch` bound to the previous iteration's value, which
    the `finally:` block then delivers again (the stale argument of
    `consumer_go`); on the very first iteration the variable is unbound
    and the consumer thread dies with `UnboundLocalError` (modelled as
    `none`).
-/

namespace DatasetPipeline

/-- Python scalars handed to `__matmul__` / `__mul__`: a `float` or an `int`.
Floats are modelled as rationals (all literals appearing in the claims are
exactly representable). -/
inductive PyNum : Type where
  | pfloat (q : ℚ)
  | pint (n : ℤ)
deriving DecidableEq

/-- `isinstance(other, float)`. -/
def PyNum.isFloat : PyNum → Bool
  | .pfloat _ => true
  | .pint _ => false

/-- The numeric value of the scalar (Python `float(other)` coercion). -/
def PyNum.toQ : PyNum → ℚ
  | .pfloat q => q
  | .pint n => (n : ℚ)

/-- Python `int(x)` on a real value: truncation toward zero (for a rational
in lowest terms this is the truncating division of numerator by denominator,
i.e. `⌊q⌋` for `q ≥ 0` and `⌈q⌉` for `q < 0`). -/
def pyTrunc (q : ℚ) : ℤ := Int.tdiv q.num q.den

/-- Python `int(other)` on a scalar. -/
def PyNum.toInt : PyNum → ℤ
  | .pfloat q => pyTrunc q
  | .pint n => n

/-- Python `other in [0, 1]` (membership by numeric equality). -/
def PyNum.in01 : PyNum → Bool
  | .pfloat q => q = 0 ∨ q = 1
  | .pint n => n = 0 ∨ n = 1

/-- `mult_option(a, b)` (pipeline.py lines 21-23):
`a * b if a is not None and b is not None else a if a is not None else b`. -/
def mult_option {α : Type} [Mul α] : Option α → Option α → Option α
  | some a, some b => some (a * b)
  | some a, none => some a
  | none, b => b

/-- One entry of `Pipeline._action_list`.  The Python entries are dicts:
  * a plain action `{'name', 'args', 'kwargs', 'proba', 'repeat'}`
    (created by `__getattr__` + `append_action`);
  * a nested pipeline `{'name': PIPELINE_ID, 'pipeline', 'proba', 'repeat'}`
    (created by `append_pipeline`); the referenced pipeline's persistent
    state is its dataset and its action list (`__getstate__`), which is
    what `nested` stores;
  * a join marker `{'name': JOIN_ID, 'datasets', ...}` (created by `join`;
    the subsequent `append_action` call also gives it `'args': ()`,
    `'kwargs': {}` — never read — and `'proba': None`, `'repeat': None`,
    kept here as the two option fields).
`D` is the type of dataset objects, `A` the type of stored argument values. -/
inductive PAction (D A : Type) : Type where
  | plain (name : String) (args : List A) (kwargs : List (String × A))
      (proba : Option ℚ) (rep : Option ℤ)
  | nested (pdata : Option D) (pacts : List (PAction D A))
      (proba : Option ℚ) (rep : Option ℤ)
  | joinMarker (datasets : List D) (proba : Option ℚ) (rep : Option ℤ)

/-- A `Pipeline`'s persistent state (`__getstate__`): its bound dataset and
its action list. -/
structure PPipeline (D A : Type) : Type where
  dataset : Option D
  actions : List (PAction D A)

variable {D A : Type}

/-- The `'proba'` value of a descriptor. -/
def PAction.probaOf : PAction D A → Option ℚ
  | .plain _ _ _ p _ => p
  | .nested _ _ p _ => p
  | .joinMarker _ p _ => p

/-- The `'repeat'` value of a descriptor. -/
def PAction.repOf : PAction D A → Option ℤ
  | .plain _ _ _ _ r => r
  | .nested _ _ _ r => r
  | .joinMarker _ _ r => r

/-- `action['proba'] = p` on a descriptor dict. -/
def PAction.setProba : PAction D A → Option ℚ → PAction D A
  | .plain nm a kw _ r, p => .plain nm a kw p r
  | .nested d acts _ r, p => .nested d acts p r
  | .joinMarker ds _ r, p => .joinMarker ds p r

/-- `action['repeat'] = r` on a descriptor dict. -/
def PAction.setRep : PAction D A → Option ℤ → PAction D A
  | .plain nm a kw p _, r => .plain nm a kw p r
  | .nested d acts p _, r => .nested d acts p r
  | .joinMarker ds p _, r => .joinMarker ds p r

/-- `get_last_action_proba` (lines 91-93): `self._action_list[-1]['proba']`.
Callers only reach it when the list is non-empty; on `[]` we return `none`
(Python would raise `IndexError`, a case no guarded caller hits). -/
def get_last_action_proba (acts : List (PAction D A)) : Option ℚ :=
  match acts.getLast? with
  | some a => a.probaOf
  | none => none

/-- `get_last_action_repeat` (lines 95-97): `self._action_list[-1]['repeat']`. -/
def get_last_action_repeat (acts : List (PAction D A)) : Option ℤ :=
  match acts.getLast? with
  | some a => a.repOf
  | none => none

/-- In-place update of the last list element (`self._action_list[-1][k] = v`). -/
def updLast (f : PAction D A → PAction D A) : List (PAction D A) → List (PAction D A)
  | [] => []
  | [a] => [f a]
  | a :: b :: rest => a :: updLast f (b :: rest)

/-- `Pipeline.__init__` with `pipeline` given (lines 31-40): copy the
dataset and action list; then, if the copy has exactly one action:
if `proba is not None` and the last action's repeat is `None`, set
`_action_list[-1]['proba'] = mult_option(proba, get_last_action_proba())`;
elif `repeat is not None` and the last action's proba is `None`, set
`_action_list[-1]['repeat'] = mult_option(repeat, get_last_action_repeat())`. -/
def pipeline_init (pl : PPipeline D A) (proba : Option ℚ) (rep : Option ℤ) :
    PPipeline D A :=
  let acts := pl.actions
  let acts2 :=
    if acts.length = 1 then
      match proba, rep with
      | some p, _ =>
          if get_last_action_repeat acts = none then
            updLast (fun a => a.setProba (mult_option (some p) (get_last_action_proba acts))) acts
          else acts
      | none, some r =>
          if get_last_action_proba acts = none then
            updLast (fun a => a.setRep (mult_option (some r) (get_last_action_repeat acts))) acts
          else acts
      | none, none => acts
    else acts
  ⟨pl.dataset, acts2⟩

/-- `Pipeline.from_pipeline` (lines 58-76).  When a `proba` (resp. `repeat`)
is supplied and the source pipeline does not have exactly one action with the
other field unset, the source pipeline is wrapped: `cls()` (an unbound empty
pipeline) followed by `append_pipeline(pipeline, ...)`, i.e. a single
nested-pipeline descriptor and a `None` dataset. -/
def from_pipeline (pl : PPipeline D A) (proba : Option ℚ) (rep : Option ℤ) :
    PPipeline D A :=
  match proba with
  | none =>
    match rep with
    | none => pipeline_init pl none none
    | some r =>
        if pl.actions.length = 1 ∧ get_last_action_proba pl.actions = none then
          pipeline_init pl none (some r)
        else
          ⟨none, [PAction.nested pl.dataset pl.actions none (some r)]⟩
  | some p =>
      if pl.actions.length = 1 ∧ get_last_action_repeat pl.actions = none then
        pipeline_init pl (some p) none
      else
        ⟨none, [PAction.nested pl.dataset pl.actions (some p) none]⟩

/-- Python `pipe1.dataset or pipe2.dataset` (line 88).  Dataset objects are
modelled as truthy (`None` is the only falsy binding). -/
def or_dataset : Option D → Option D → Option D
  | some d, _ => some d
  | none, b => b

/-- `Pipeline.concat` (lines 78-89). -/
def concat [DecidableEq D] (pipe1 pipe2 : PPipeline D A) :
    Except String (PPipeline D A) :=
  if pipe1.dataset ≠ pipe2.dataset ∧ pipe1.dataset ≠ none ∧ pipe2.dataset ≠ none then
    Except.error "Cannot add pipelines with different datasets"
  else
    let new_p1 := from_pipeline pipe1 none none
    let new_p2 := from_pipeline pipe2 none none
    Except.ok ⟨or_dataset pipe1.dataset pipe2.dataset, new_p1.actions ++ new_p2.actions⟩

/-- `Pipeline.__add__` (lines 99-105); the non-`Pipeline` `TypeError` branch
is excluded by typing. -/
def padd [DecidableEq D] (self other : PPipeline D A) :
    Except String (PPipeline D A) :=
  if other.actions.length > 0 then concat self other else Except.ok self

/-- `Pipeline.__matmul__` (lines 107-113). -/
def matmul (self : PPipeline D A) (other : PyNum) :
    Except String (PPipeline D A) :=
  if self.actions.length = 0 then
    Except.error "Cannot add probability to an empty pipeline"
  else if ¬ other.isFloat ∧ ¬ other.in01 then
    Except.error "Probability should be float or 0 or 1"
  else
    let o : Option ℚ := if other.toInt ≠ 1 then some other.toQ else none
    Except.ok (from_pipeline self o none)

/-- `Pipeline.__mul__` (lines 115-122); an argument that is neither an
`int` nor a `float` would leave `new_p` unbound in Python, a case excluded
by the `PyNum` type. -/
def pmul (self : PPipeline D A) (other : PyNum) :
    Except String (PPipeline D A) :=
  if other.toQ < 0 then
    Except.error "Repeat count cannot be negative. Use as pipeline * positive_number"
  else if other.isFloat then
    Except.error "Repeat count cannot be float. Use as pipeline * integer"
  else
    Except.ok (from_pipeline self none (some other.toInt))

/-- Worker-pool size in `gen_batch` (lines 412-419): `prefetch` is first
capped, `prefetch = min(prefetch, 62)`, and the executor is then created
with `max_workers=prefetch + 1` (for both the `threads` and `mpc` targets). -/
def pool_workers (prefetch : ℕ) : ℕ := min prefetch 62 + 1

/-! ## Sequential executor

`_exec_all_actions` / `_exec_one_action` / `_exec_nested_pipeline` /
`_needs_exec` (lines 210-258), parameterised over the external
collaborators.  `B` is the batch type, `I` the index type, `D` datasets,
`A` Python argument values.  Randomness (`np.random.binomial` in
`_needs_exec`) is modelled as an oracle `draw k p` giving the `k`-th
Bernoulli(`p`) sample of the run; the sample counter is threaded through
execution.  Two side effects with no observable impact on the results the
claims speak about are not modelled: the `batch.pipeline = self`
attribute write before each dispatch, and the optional `tf_queue` sink
forwarding (`if 'tf_queue' in _action`; no descriptor built by the
composition operators carries a `tf_queue` key). -/

/-- External collaborators of the executor. -/
structure ExecEnv (B D A I : Type) : Type where
  /-- `batch.index`. -/
  index : B → I
  /-- `dataset.create_batch(index)` (used by the join machinery, line 236). -/
  create_batch : D → I → B
  /-- Embedding of a created `Batch` object into the argument universe
  (in Python a batch is itself just a value placed in the args tuple). -/
  inj : B → A
  /-- `getattr(batch, name)(*args, **kwargs)`: dispatch the named action
  method on the batch, returning the new batch (`_get_action_method` plus
  the call on line 215). -/
  apply_action : String → B → List A → List (String × A) → B
  /-- `np.random.binomial(1, p) == 1`: the `k`-th Bernoulli sample. -/
  draw : ℕ → ℚ → Bool

variable {B I : Type}

/-- `_needs_exec` (lines 249-253): `True` without drawing when `proba` is
`None`, otherwise one Bernoulli draw, consuming one sample. -/
def needs_exec (env : ExecEnv B D A I) (k : ℕ) (proba : Option ℚ) : Bool × ℕ :=
  match proba with
  | none => (true, k)
  | some p => (env.draw k p, k + 1)

/-- Iteration count of `for _ in range(action['repeat'] or 1)`
(lines 212, 220).  Python `x or 1` yields `1` when `x` is `None` **or**
`0` (zero is falsy); a negative value passes through and `range` of it is
empty. -/
def or_one : Option ℤ → ℕ
  | none => 1
  | some r => if r = 0 then 1 else r.toNat

/-- The repeat loop of `_exec_one_action` (lines 212-215): the action
method is re-fetched from the current batch each iteration and called on
the same `args`/`kwargs`, its result becoming the current batch. -/
def plain_iter (env : ExecEnv B D A I) (name : String) (args : List A)
    (kw : List (String × A)) : ℕ → B → B
  | 0, b => b
  | n + 1, b => plain_iter env name args kw n (env.apply_action name b args kw)

mutual
/-- `_exec_all_actions` (lines 224-247) on an explicit action list, with
the `joined_sets` local and the Bernoulli sample counter threaded.
A `JOIN_ID` entry stores its datasets into `joined_sets` (overwriting any
pending ones); a `PIPELINE_ID` entry runs the nested action list (each run
starting with its own fresh `joined_sets = None`) and leaves the outer
pending join untouched; an ordinary entry first materialises any pending
join — one `jset.create_batch(batch.index)` per joined dataset, prepended
in order to the stored positional args — clears `joined_sets`, and then
runs `_exec_one_action`.
Python note: `_exec_all_actions` begins with
`action_list = action_list or self._action_list`, so a nested pipeline
whose action list is *empty* would fall back to the caller's own list and
recurse forever; the model covers the terminating (non-empty or top-level)
executions. -/
def exec_all_actions (env : ExecEnv B D A I) :
    List (PAction D A) → B → ℕ → Option (List D) → B × ℕ
  | [], b, k, _ => (b, k)
  | PAction.joinMarker ds _ _ :: rest, b, k, _ =>
      exec_all_actions env rest b k (some ds)
  | PAction.nested _ pacts pr rp :: rest, b, k, j =>
      let fk := needs_exec env k pr
      let bk := if fk.1 then exec_nested_iter env pacts (or_one rp) b fk.2
                else (b, fk.2)
      exec_all_actions env rest bk.1 bk.2 j
  | PAction.plain name args kw pr rp :: rest, b, k, j =>
      let fullArgs :=
        match j with
        | some ds => ds.map (fun d => env.inj (env.create_batch d (env.index b))) ++ args
        | none => args
      let fk := needs_exec env k pr
      let b2 := if fk.1 then plain_iter env name fullArgs kw (or_one rp) b else b
      exec_all_actions env rest b2 fk.2 none
termination_by acts _ _ _ => (sizeOf acts, 0)

/-- The repeat loop of `_exec_nested_pipeline` (lines 220-221): run the
inner action list, feeding each iteration's output batch into the next. -/
def exec_nested_iter (env : ExecEnv B D A I) :
    List (PAction D A) → ℕ → B → ℕ → B × ℕ
  | _, 0, b, k => (b, k)
  | inner, n + 1, b, k =>
      let bk := exec_all_actions env inner b k none
      exec_nested_iter env inner n bk.1 bk.2
termination_by inner n _ _ => (sizeOf inner, n + 1)
end

/-- `Pipeline._exec` / `create_batch`'s use of it: run the pipeline's own
action list on one batch (fresh `joined_sets`, fresh sample counter),
returning the resulting batch. -/
def exec_pipeline (env : ExecEnv B D A I) (pl : PPipeline D A) (b : B) : B :=
  (exec_all_actions env pl.actions b 0 none).1

/-! ## Prefetch delivery

`gen_batch` (lines 405-449) either executes inline (`prefetch == 0`) or
stands up the queue machinery.  In the prefetch path the producer
(`_put_batches_into_queue`, lines 325-335) submits one worker execution
per generated batch and pushes the resulting futures into the strictly
FIFO `_prefetch_queue`, followed by a `None` sentinel; the consumer
(`_run_batches_from_queue`, lines 337-359) awaits the futures in that
order and forwards results to `_batch_queue`, whence the generator yields
them.  The bounded queues and the admission-token queue only ever block
producers/consumers, so the *sequence* of delivered batches is a function
of the per-future outcomes alone, which is what is modelled here.  One
worker execution either returns a batch, raises `SkipBatchException`, or
raises some other exception. -/

/-- Outcome of one worker execution of `_exec` on one generated batch. -/
inductive FutureRes (C : Type) : Type where
  | ok (c : C)
  | skip
  | err
deriving DecidableEq

variable {C : Type}

/-- The consumer loop body of `_run_batches_from_queue` (lines 337-359),
folded over the future outcomes in FIFO order; the list end plays the
`None` sentinel.  State: `sb` is the `skip_batch` flag (initialised
`False`, and — as in the source — reset only inside the
`if not skip_batch:` branch, i.e. never while it is `True`), and `stale`
is the current value of the loop variable `batch` from the last successful
`future.result()` (`none` while still unbound).  On `SkipBatchException`
the flag is set; on any other exception the flag is *not* set and the
`finally:` block delivers the stale `batch` value again — or, if `batch`
is still unbound, the consumer thread dies with `UnboundLocalError`
(result `none`: no sentinel ever reaches the caller). -/
def consumer_go : List (FutureRes C) → Bool → Option C → Option (List C)
  | [], _, _ => some []
  | FutureRes.ok c :: rest, sb, _ =>
      if sb then consumer_go rest sb (some c)
      else Option.map (fun l => c :: l) (consumer_go rest false (some c))
  | FutureRes.skip :: rest, _, stale => consumer_go rest true stale
  | FutureRes.err :: rest, sb, stale =>
      if sb then consumer_go rest sb stale
      else
        match stale with
        | none => none
        | some v => Option.map (fun l => v :: l) (consumer_go rest false (some v))

/-- Sequence of batches a prefetch consumer delivers to the caller, given
the FIFO sequence of worker outcomes (`skip_batch = False`, `batch`
unbound at loop entry). -/
def consumer_delivered (futs : List (FutureRes C)) : Option (List C) :=
  consumer_go futs false none

/-- The `prefetch == 0` branch of `gen_batch` (lines 440-447): execute
inline, `pass` on `SkipBatchException`, otherwise yield.  A non-Skip
exception propagates out of the generator, ending the iteration: nothing
further is delivered. -/
def seq_delivered (ex : B → FutureRes C) : List B → List C
  | [] => []
  | b :: rest =>
      match ex b with
      | FutureRes.ok c => c :: seq_delivered ex rest
      | FutureRes.skip => seq_delivered ex rest
      | FutureRes.err => []

/-- The `prefetch > 0` path of `gen_batch` for a deterministic per-batch
execution `ex`: the producer submits the generated batches in order, the
futures resolve to `ex` of each batch, and the consumer delivers from them
in FIFO order. -/
def prefetch_delivered (ex : B → FutureRes C) (bs : List B) : Option (List C) :=
  consumer_delivered (bs.map ex)

/-! ## Concrete fixtures used by the closed theorems below -/

/-- A deterministic action chain: batch `0` deterministically raises
`SkipBatchException`, every other batch is transformed to itself. -/
def det_skip_exec : ℕ → FutureRes ℕ :=
  fun b => if b = 0 then FutureRes.skip else FutureRes.ok b

/-- A pipeline holding one recorded action named `incr`. -/
def incr_pipe : PPipeline ℕ ℕ := ⟨none, [PAction.plain "incr" [] [] none none]⟩

/-- An environment over `ℕ` batches whose only capability, whatever its
name, increments the batch by one. -/
def incr_env : ExecEnv ℕ ℕ ℕ ℕ :=
  ⟨fun b => b, fun _ i => i, fun b => b, fun _ b _ _ => b + 1, fun _ _ => true⟩

/-- A pipeline holding one recorded action named `act`. -/
def single_act_pipe : PPipeline ℕ ℕ := ⟨none, [PAction.plain "act" [] [] none none]⟩

/-- A pipeline holding two recorded actions. -/
def two_act_pipe : PPipeline ℕ ℕ :=
  ⟨none, [PAction.plain "a" [] [] none none, PAction.plain "b" [] [] none none]⟩

/-! ## Helper lemmas -/

/-- `from_pipeline(pipeline)` with neither `proba` nor `repeat` is a plain
copy: same dataset, same action list. -/
theorem from_pipeline_copy {D A : Type} (pl : PPipeline D A) :
    from_pipeline pl none none = ⟨pl.dataset, pl.actions⟩ := by
  show pipeline_init pl none none = _
  unfold pipeline_init
  split <;> simp_all

/-- Python `int(p)` is `0` for a probability strictly between 0 and 1. -/
theorem pyTrunc_eq_zero {p : ℚ} (h1 : 0 < p) (h2 : p < 1) : pyTrunc p = 0 := by
  unfold pyTrunc
  rw [Int.tdiv_eq_ediv (Rat.num_nonneg.mpr h1.le) (Int.natCast_nonneg _)]
  exact Int.ediv_eq_zero_of_lt (Rat.num_nonneg.mpr h1.le)
    (Rat.lt_one_iff_num_lt_denom.mp h2)

/-! ## Claims -/

/-- C1: the claim states that in a prefetch run a Skip signal (or any
other worker exception) on a batch removes exactly that batch from the
output stream, with all other batches still delivered in order.  The code
evaluated at the failing inputs shows otherwise: after one Skip every
later batch is also dropped (the `skip_batch` flag is never reset once
`True`), so the outcomes `[ok 5, skip, ok 7]` deliver `[5]` and not the
claimed `[5, 7]`; and a non-Skip worker exception re-delivers the previous
batch instead of removing only the failed one, so `[ok 4, err, ok 6]`
delivers `[4, 4, 6]` and not the claimed `[4, 6]`. -/
theorem c1_skip_and_error_break_delivery :
    consumer_delivered [FutureRes.ok 5, FutureRes.skip, FutureRes.ok 7] = some [5] ∧
    consumer_delivered [FutureRes.ok 4, FutureRes.err, FutureRes.ok 6] = some [4, 4, 6] ∧
    (some [5] : Option (List ℕ)) ≠ some [5, 7] ∧
    (some [4, 4, 6] : Option (List ℕ)) ≠ some [4, 6] := by
  refine ⟨by decide, by decide, by decide, by decide⟩

/-- C2: the claim states that for every deterministic action chain the
prefetch run (`prefetch = k > 0`) delivers the same sequence as the inline
run (`prefetch = 0`).  Evaluating the code on the deterministic chain
`det_skip_exec` over the two generated batches `[0, 1]` (batch 0
deterministically raises `SkipBatchException`) shows otherwise: the inline
path delivers `[1]`, the prefetch path delivers `[]`, because the
never-reset `skip_batch` flag makes the prefetch consumer drop every batch
after the first skip. -/
theorem c2_prefetch_output_differs_from_sequential :
    seq_delivered det_skip_exec [0, 1] = [1] ∧
    prefetch_delivered det_skip_exec [0, 1] = some [] ∧
    prefetch_delivered det_skip_exec [0, 1]
      ≠ some (seq_delivered det_skip_exec [0, 1]) := by
  refine ⟨by decide, by decide, by decide⟩

/-- C3: the claim states that `withRepeat(P, 0)` on a single-action
pipeline never invokes the action and returns the input batch unchanged.
The code evaluated at the failing input shows otherwise: `incr_pipe * 0`
does record `repeat = 0` on the action, but executing it on batch `5`
invokes the action once — `range(action['repeat'] or 1)` turns the falsy
`0` into `1` — returning `6`, not the unchanged `5`. -/
theorem c3_repeat_zero_executes_once :
    pmul incr_pipe (PyNum.pint 0)
      = Except.ok ⟨none, [PAction.plain "incr" [] [] none (some 0)]⟩ ∧
    exec_pipeline incr_env ⟨none, [PAction.plain "incr" [] [] none (some 0)]⟩ 5 = 6 ∧
    (6 : ℕ) ≠ 5 := by
  refine ⟨rfl, ?_, by decide⟩
  simp [incr_env, exec_pipeline, exec_all_actions, needs_exec, or_one, plain_iter]

/-- C4: `concat(P, Q)` raises exactly when both pipelines carry distinct
non-null dataset bindings; otherwise it returns a new pipeline whose
descriptor list is `P.descriptors ++ Q.descriptors` and whose dataset is
P's if non-null, else Q's. -/
theorem c4_concat_characterization (p1 p2 : PPipeline ℕ ℕ) :
    concat p1 p2 =
      if p1.dataset ≠ none ∧ p2.dataset ≠ none ∧ p1.dataset ≠ p2.dataset then
        Except.error "Cannot add pipelines with different datasets"
      else
        Except.ok ⟨if p1.dataset = none then p2.dataset else p1.dataset,
                   p1.actions ++ p2.actions⟩ := by
  obtain ⟨d1, a1⟩ := p1
  obtain ⟨d2, a2⟩ := p2
  simp only [concat, from_pipeline_copy]
  cases d1 <;> cases d2 <;> simp [or_dataset]

/-- C5: on a single-action pipeline with the repeat field unset, applying
probability `p1` and then `p2` (each in `(0,1)`) yields that action
carrying probability `p1 * p2`; symmetrically, with the probability field
unset, applying repeat `m` and then `n` yields repeat `m * n`. -/
theorem c5_proba_and_repeat_compose_multiplicatively
    (ds : Option ℕ) (nm : String) (args : List ℕ) (kw : List (String × ℕ))
    (p1 p2 : ℚ) (m n : ℤ)
    (h1 : 0 < p1) (h2 : p1 < 1) (h3 : 0 < p2) (h4 : p2 < 1)
    (hm : 0 ≤ m) (hn : 0 ≤ n) :
    matmul ⟨ds, [PAction.plain nm args kw none none]⟩ (PyNum.pfloat p1)
      = Except.ok ⟨ds, [PAction.plain nm args kw (some p1) none]⟩ ∧
    matmul ⟨ds, [PAction.plain nm args kw (some p1) none]⟩ (PyNum.pfloat p2)
      = Except.ok ⟨ds, [PAction.plain nm args kw (some (p1 * p2)) none]⟩ ∧
    pmul ⟨ds, [PAction.plain nm args kw none none]⟩ (PyNum.pint m)
      = Except.ok ⟨ds, [PAction.plain nm args kw none (some m)]⟩ ∧
    pmul ⟨ds, [PAction.plain nm args kw none (some m)]⟩ (PyNum.pint n)
      = Except.ok ⟨ds, [PAction.plain nm args kw none (some (m * n))]⟩ := by
  have t1 : pyTrunc p1 = 0 := pyTrunc_eq_zero h1 h2
  have t2 : pyTrunc p2 = 0 := pyTrunc_eq_zero h3 h4
  have hmq : ¬ ((m : ℚ) < 0) := by
    rw [not_lt]
    exact_mod_cast hm
  have hnq : ¬ ((n : ℚ) < 0) := by
    rw [not_lt]
    exact_mod_cast hn
  refine ⟨?_, ?_, ?_, ?_⟩
  · simp [matmul, PyNum.isFloat, PyNum.toInt, PyNum.toQ, t1, from_pipeline,
      pipeline_init, get_last_action_proba, get_last_action_repeat,
      PAction.probaOf, PAction.repOf, updLast, PAction.setProba, mult_option]
  · simp [matmul, PyNum.isFloat, PyNum.toInt, PyNum.toQ, t2, from_pipeline,
      pipeline_init, get_last_action_proba, get_last_action_repeat,
      PAction.probaOf, PAction.repOf, updLast, PAction.setProba, mult_option,
      mul_comm p1 p2]
  · simp [pmul, PyNum.isFloat, PyNum.toInt, PyNum.toQ, hmq, from_pipeline,
      pipeline_init, get_last_action_proba, get_last_action_repeat,
      PAction.probaOf, PAction.repOf, updLast, PAction.setRep, mult_option]
  · simp [pmul, PyNum.isFloat, PyNum.toInt, PyNum.toQ, hnq, from_pipeline,
      pipeline_init, get_last_action_proba, get_last_action_repeat,
      PAction.probaOf, PAction.repOf, updLast, PAction.setRep, mult_option,
      mul_comm m n]

/-- C5 witness: the composition laws at `p1 = 1/2`, `p2 = 1/3`, `m = 2`,
`n = 3` on a concrete single-action pipeline. -/
theorem c5_witness :
    matmul single_act_pipe (PyNum.pfloat (mkRat 1 2))
      = Except.ok ⟨none, [PAction.plain "act" [] [] (some (mkRat 1 2)) none]⟩ ∧
    matmul (⟨none, [PAction.plain "act" [] [] (some (mkRat 1 2)) none]⟩ : PPipeline ℕ ℕ)
        (PyNum.pfloat (mkRat 1 3))
      = Except.ok ⟨none,
          [PAction.plain "act" [] [] (some (mkRat 1 2 * mkRat 1 3)) none]⟩ ∧
    pmul single_act_pipe (PyNum.pint 2)
      = Except.ok ⟨none, [PAction.plain "act" [] [] none (some 2)]⟩ ∧
    pmul (⟨none, [PAction.plain "act" [] [] none (some 2)]⟩ : PPipeline ℕ ℕ)
        (PyNum.pint 3)
      = Except.ok ⟨none, [PAction.plain "act" [] [] none (some (2 * 3))]⟩ :=
  c5_proba_and_repeat_compose_multiplicatively none "act" [] []
    (mkRat 1 2) (mkRat 1 3) 2 3
    (by decide) (by decide) (by decide) (by decide) (by decide) (by decide)

/-- C6 counterexample: the claim states `withProbability(P, p)` raises an
error for every real `p` outside `[0, 1]`; but the code accepts the float
`5/2` on a single-action pipeline without any error and records it as the
action's probability. -/
theorem c6_float_out_of_range_accepted :
    matmul single_act_pipe (PyNum.pfloat (mkRat 5 2))
      = Except.ok ⟨none, [PAction.plain "act" [] [] (some (mkRat 5 2)) none]⟩ := by
  rfl

/-- C6 (amended): `withProbability(P, p)` raises on an empty pipeline and
on a `p` that is neither a float nor the integer 0 or 1; floats are not
range-checked — every float `p` (outside `[0, 1]` included) is accepted —
and any `p` truncating to integer 1 (in particular `p == 1`) records no
probability, leaving the action list unchanged. -/
theorem c6_matmul_amended (pl : PPipeline ℕ ℕ) (q : ℚ) (n : ℤ)
    (hne : pl.actions ≠ []) (hn0 : n ≠ 0) (hn1 : n ≠ 1) :
    matmul (⟨none, []⟩ : PPipeline ℕ ℕ) (PyNum.pfloat q)
      = Except.error "Cannot add probability to an empty pipeline" ∧
    matmul pl (PyNum.pfloat q)
      = Except.ok (from_pipeline pl (if pyTrunc q ≠ 1 then some q else none) none) ∧
    matmul pl (PyNum.pfloat 1) = Except.ok ⟨pl.dataset, pl.actions⟩ ∧
    matmul pl (PyNum.pint n)
      = Except.error "Probability should be float or 0 or 1" := by
  have hlen : pl.actions.length ≠ 0 := by
    simpa [List.length_eq_zero] using hne
  refine ⟨rfl, ?_, ?_, ?_⟩
  · simp [matmul, PyNum.isFloat, PyNum.toInt, PyNum.toQ, hlen]
  · have h1 : pyTrunc 1 = 1 := rfl
    simp [matmul, PyNum.isFloat, PyNum.toInt, PyNum.toQ, hlen, h1,
      from_pipeline_copy]
  · simp [matmul, PyNum.isFloat, PyNum.in01, hlen, hn0, hn1]

/-- C6 witness: the amended behaviour at the single-action pipeline with
`p = 7/2` and the non-float, non-{0,1} argument `5`. -/
theorem c6_witness :
    matmul (⟨none, []⟩ : PPipeline ℕ ℕ) (PyNum.pfloat (mkRat 7 2))
      = Except.error "Cannot add probability to an empty pipeline" ∧
    matmul single_act_pipe (PyNum.pfloat (mkRat 7 2))
      = Except.ok (from_pipeline single_act_pipe
          (if pyTrunc (mkRat 7 2) ≠ 1 then some (mkRat 7 2) else none) none) ∧
    matmul single_act_pipe (PyNum.pfloat 1)
      = Except.ok ⟨single_act_pipe.dataset, single_act_pipe.actions⟩ ∧
    matmul single_act_pipe (PyNum.pint 5)
      = Except.error "Probability should be float or 0 or 1" :=
  c6_matmul_amended single_act_pipe (mkRat 7 2) 5
    (by simp [single_act_pipe]) (by decide) (by decide)

/-- C7 counterexample: the claim states that applying the probability or
repeat operator to a pipeline with two or more actions raises an error at
construction time; but on the concrete two-action pipeline both operators
return a new pipeline (a nested-pipeline descriptor wrapping the original)
without raising. -/
theorem c7_multi_action_proba_no_error :
    matmul two_act_pipe (PyNum.pfloat (mkRat 1 2))
      = Except.ok ⟨none, [PAction.nested none
          [PAction.plain "a" [] [] none none, PAction.plain "b" [] [] none none]
          (some (mkRat 1 2)) none]⟩ ∧
    pmul two_act_pipe (PyNum.pint 3)
      = Except.ok ⟨none, [PAction.nested none
          [PAction.plain "a" [] [] none none, PAction.plain "b" [] [] none none]
          none (some 3)]⟩ := ⟨rfl, rfl⟩

/-- C7 (amended): applying the probability operator (with `int(p) ≠ 1`) or
the repeat operator to a pipeline with two or more actions raises no
error: it returns a new unbound pipeline whose single descriptor is a
nested-pipeline entry wrapping the original pipeline's dataset and action
list and carrying the probability (resp. repeat count). -/
theorem c7_multi_action_wraps_nested (pl : PPipeline ℕ ℕ) (q : ℚ) (m : ℕ)
    (hlen : 2 ≤ pl.actions.length) (hq : pyTrunc q ≠ 1) :
    matmul pl (PyNum.pfloat q)
      = Except.ok ⟨none, [PAction.nested pl.dataset pl.actions (some q) none]⟩ ∧
    pmul pl (PyNum.pint (m : ℤ))
      = Except.ok ⟨none,
          [PAction.nested pl.dataset pl.actions none (some (m : ℤ))]⟩ := by
  have h0 : pl.actions.length ≠ 0 := by omega
  have h1 : pl.actions.length ≠ 1 := by omega
  constructor
  · simp [matmul, PyNum.isFloat, PyNum.toInt, PyNum.toQ, h0, hq,
      from_pipeline, h1]
  · simp [pmul, PyNum.isFloat, PyNum.toInt, PyNum.toQ, from_pipeline, h1]

/-- C7 witness: the amended behaviour at the two-action pipeline with
`p = 1/4` and repeat `5`. -/
theorem c7_witness :
    matmul two_act_pipe (PyNum.pfloat (mkRat 1 4))
      = Except.ok ⟨none, [PAction.nested two_act_pipe.dataset
          two_act_pipe.actions (some (mkRat 1 4)) none]⟩ ∧
    pmul two_act_pipe (PyNum.pint ((5 : ℕ) : ℤ))
      = Except.ok ⟨none, [PAction.nested two_act_pipe.dataset
          two_act_pipe.actions none (some ((5 : ℕ) : ℤ))]⟩ :=
  c7_multi_action_wraps_nested two_act_pipe (mkRat 1 4) 5
    (by decide) (by decide)

/-- C8: a join marker stores its datasets as the pending join (overwriting
any previous one); a nested-pipeline descriptor neither consumes nor
clears the pending join (its inner list runs with its own fresh join
state); and the next ordinary descriptor consumes it — one fresh batch per
joined dataset, created from the current batch's index, is prepended in
dataset order to the descriptor's positional arguments, after which the
pending join is cleared (execution of the tail continues with `none`).
In particular `join` followed by a `combine` action dispatches `combine`
with the joined batch prepended before its original positional
arguments. -/
theorem c8_join_consumed_by_next_ordinary
    (Bt Dt At It : Type) (env : ExecEnv Bt Dt At It) (b : Bt) (k : ℕ)
    (ds : List Dt) (j : Option (List Dt)) (nm : String)
    (args : List At) (kw : List (String × At)) (pd : Option Dt)
    (pacts rest : List (PAction Dt At)) :
    exec_all_actions env (PAction.joinMarker ds none none :: rest) b k j
      = exec_all_actions env rest b k (some ds) ∧
    exec_all_actions env (PAction.nested pd pacts none none :: rest) b k j
      = (let bk := exec_all_actions env pacts b k none
         exec_all_actions env rest bk.1 bk.2 j) ∧
    exec_all_actions env (PAction.plain nm args kw none none :: rest) b k (some ds)
      = exec_all_actions env rest
          (env.apply_action nm b
            (ds.map (fun d => env.inj (env.create_batch d (env.index b))) ++ args) kw)
          k none ∧
    exec_all_actions env
        (PAction.joinMarker ds none none ::
          PAction.plain nm args kw none none :: rest) b k none
      = exec_all_actions env rest
          (env.apply_action nm b
            (ds.map (fun d => env.inj (env.create_batch d (env.index b))) ++ args) kw)
          k none := by
  refine ⟨?_, ?_, ?_, ?_⟩
  · rw [exec_all_actions]
  · rw [exec_all_actions]
    simp [needs_exec, or_one, exec_nested_iter]
  · rw [exec_all_actions]
    simp [needs_exec, or_one, plain_iter]
  · rw [exec_all_actions, exec_all_actions]
    simp [needs_exec, or_one, plain_iter]

/-- C9 counterexample: the claim states the worker pool has exactly
`min(d, 61) + 1` workers and never exceeds 62; but at configured prefetch
depth 62 the code creates `min(62, 62) + 1 = 63` workers. -/
theorem c9_pool_can_reach_63 :
    pool_workers 62 = 63 ∧ min 62 61 + 1 = 62 ∧
    pool_workers 62 ≠ min 62 61 + 1 := by decide

/-- C9 (amended): for every configured prefetch depth `d > 0` the worker
pool has exactly `min(d, 62) + 1` workers, so it never exceeds 63. -/
theorem c9_pool_size_amended (d : ℕ) (hd : 0 < d) :
    pool_workers d = min d 62 + 1 ∧ pool_workers d ≤ 63 := by
  unfold pool_workers
  omega

/-- C9 witness: the amended pool size at depth 100. -/
theorem c9_witness : pool_workers 100 = min 100 62 + 1 ∧ pool_workers 100 ≤ 63 :=
  c9_pool_size_amended 100 (by decide)

/-- C10: adding a pipeline with zero descriptors on the right of `+`
returns the left pipeline itself, unchanged — same descriptor list, same
dataset binding (in the source, the very same object: `__add__` returns
`self` without copying when `other.num_actions == 0`). -/
theorem c10_add_empty_right_identity (p : PPipeline ℕ ℕ) (d : Option ℕ) :
    padd p ⟨d, []⟩ = Except.ok p := rfl

end DatasetPipeline
